import Mathlib

/-!
Verification of the `sysinfo.py` host-telemetry aggregator.

This file is a shallow embedding of the parts of `bin/sysinfo.py` that the
specification's claims are about.  Pure Python helpers become Lean
functions; the IO boundary (file reads, subprocess calls, sysfs globs) is
made explicit by parameterising each probe over the results of those
external calls (a reader `String → Option String` models `safe_read_file`,
an outcome type models `subprocess.run`, lists model glob results).
Python floats are modelled by exact rationals, with Python's
round-half-to-even `round(x, n)` modelled explicitly.
-/

namespace Sysinfo

/-! ## Python primitives -/

/-- Python whitespace characters stripped by `str.strip()`. -/
def pyWs : List Char := [' ', '\t', '\n', '\r', '\x0b', '\x0c']

/-- `str.strip()` on a list of characters. -/
def stripCh (l : List Char) : List Char :=
  ((l.dropWhile (· ∈ pyWs)).reverse.dropWhile (· ∈ pyWs)).reverse

/-- `str.strip()` on a `String`. -/
def pyStrip (s : String) : String := ⟨stripCh s.data⟩

/-- `str.lower()` (the identifiers involved are ASCII). -/
def pyLower (s : String) : String := ⟨s.data.map Char.toLower⟩

/-- Python's round-half-to-even of a rational to an integer
(the behaviour of builtin `round(x)`). -/
def rndHalfEven (q : ℚ) : ℤ :=
  let n := ⌊q⌋
  let f := q - n
  if f < 1/2 then n
  else if 1/2 < f then n + 1
  else if Even n then n else n + 1

/-- Python `round(x, 2)`. -/
def pyRound2 (q : ℚ) : ℚ := (rndHalfEven (q * 100) : ℚ) / 100

/-- Python `round(x, 1)`. -/
def pyRound1 (q : ℚ) : ℚ := (rndHalfEven (q * 10) : ℚ) / 10

/-- A Python value handed to the numeric conversion helpers.  `int(...)`
either yields an integer or raises `ValueError`/`TypeError`. -/
inductive PyVal where
  | intV (n : ℤ)
  | strV (s : String)
  | noneV
  deriving DecidableEq

/-- One maximal run of leading sign/digits check: `int(str)` succeeds on an
optionally signed, stripped, nonempty digit string. -/
def parseIntStr (s : String) : Option ℤ :=
  let t := stripCh s.data
  match t with
  | '-' :: ds => if ds ≠ [] ∧ ds.all Char.isDigit
      then some (-(ds.foldl (fun a c => a * 10 + (c.toNat - '0'.toNat)) 0 : ℕ)) else none
  | '+' :: ds => if ds ≠ [] ∧ ds.all Char.isDigit
      then some (ds.foldl (fun a c => a * 10 + (c.toNat - '0'.toNat)) 0 : ℕ) else none
  | ds => if ds ≠ [] ∧ ds.all Char.isDigit
      then some (ds.foldl (fun a c => a * 10 + (c.toNat - '0'.toNat)) 0 : ℕ) else none

/-- Python `int(v)` for the value shapes the script feeds to the
converters: an int is returned as is, a string is parsed, `None` raises. -/
def pyInt : PyVal → Option ℤ
  | .intV n => some n
  | .strV s => parseIntStr s
  | .noneV => none

/-! ## Command Executor (`SystemInfo.run_command`, lines 67-80) -/

/-- Outcome of the underlying `subprocess.run` call: it completed (with
captured stdout, stderr and return code), raised `TimeoutExpired`, or
raised some other exception carrying a message `str(e)`. -/
inductive SubprocOutcome where
  | completed (out err : String) (rc : ℤ)
  | timedOut
  | raised (msg : String)
  deriving DecidableEq

/-- `SystemInfo.run_command`: returns `(stdout.strip(), stderr.strip(),
returncode)` on completion, `("", "Command timed out", 1)` on timeout, and
`("", str(e), 1)` on any other exception.  Totality of this function is
the model of "never raises outward". -/
def run_command : SubprocOutcome → String × String × ℤ
  | .completed out err rc => (pyStrip out, pyStrip err, rc)
  | .timedOut => ("", "Command timed out", 1)
  | .raised msg => ("", msg, 1)

/-- Modelled from the spec: the behaviour of the OS/shell for a command
that does not exist, which is outside the repository (§1 treats external
command semantics as an opaque collaborator).  Either `subprocess.run`
raises (e.g. `FileNotFoundError` when `shell=False`), whose Python message
is nonempty, or the shell itself completes with empty stdout, a
"command not found" diagnostic on stderr, and a nonzero status (127). -/
def missingCommandOutcome (o : SubprocOutcome) : Prop :=
  (∃ msg, o = .raised msg ∧ msg ≠ "") ∨
  (∃ err rc, o = .completed "" err rc ∧ pyStrip err ≠ "" ∧ rc ≠ 0)

/-! ## Unit conversions (`bytes_to_gb`, `kb_to_gb`, lines 143-155) -/

/-- Numeric core of `bytes_to_gb`: `round(n / 1024**3, 2)`. -/
def bytes_to_gb_num (n : ℤ) : ℚ := pyRound2 ((n : ℚ) / (1024 ^ 3 : ℚ))

/-- Numeric core of `kb_to_gb`: `round(n / 1024**2, 2)`. -/
def kb_to_gb_num (n : ℤ) : ℚ := pyRound2 ((n : ℚ) / (1024 ^ 2 : ℚ))

/-- `SystemInfo.bytes_to_gb`: `int()`-convert the argument and round;
a failed conversion (`ValueError`/`TypeError`) yields `0.0`. -/
def bytes_to_gb (v : PyVal) : ℚ :=
  match pyInt v with
  | some n => bytes_to_gb_num n
  | none => 0

/-- `SystemInfo.kb_to_gb`: `int()`-convert the argument and round;
a failed conversion yields `0.0`. -/
def kb_to_gb (v : PyVal) : ℚ :=
  match pyInt v with
  | some n => kb_to_gb_num n
  | none => 0

/-! ## Python dict as an ordered association list

Python 3.7+ dicts preserve insertion order; assigning to an existing key
overwrites the value in place, a new key is appended at the end. -/

/-- `d[k] = v` on an insertion-ordered dict. -/
def dictInsert (k : String) (v : α) : List (String × α) → List (String × α)
  | [] => [(k, v)]
  | (k', v') :: rest =>
    if k' = k then (k, v) :: rest else (k', v') :: dictInsert k v rest

/-- `d.update(new)`: insert every pair of `new`, in order. -/
def dictUpdate (d new : List (String × α)) : List (String × α) :=
  new.foldl (fun acc p => dictInsert p.1 p.2 acc) d

/-- `k in d` / `d[k]` lookup. -/
def dictGet (d : List (String × α)) (k : String) : Option α :=
  (d.find? (fun p => p.1 = k)).map (·.2)

/-! ## Memory probe parsing (`get_linux_memory_info`, lines 423-463) -/

/-- `text.split('\n')` on a character list. -/
def splitOnNl : List Char → List (List Char)
  | [] => [[]]
  | c :: cs =>
    match splitOnNl cs with
    | [] => if c = '\n' then [[], []] else [[c]]
    | l :: ls => if c = '\n' then [] :: l :: ls else (c :: l) :: ls

/-- `line.split(sep, 1)` when `sep in line`: the part before the first
occurrence and the part after it; `none` when `sep` does not occur. -/
def splitFirst (sep : Char) : List Char → Option (List Char × List Char)
  | [] => none
  | c :: cs =>
    if c = sep then some ([], cs)
    else (splitFirst sep cs).map (fun p => (c :: p.1, p.2))

/-- `re.search(r'(\d+)', s)`: the first maximal run of decimal digits. -/
def firstDigitRun : List Char → Option (List Char)
  | [] => none
  | c :: cs =>
    if c.isDigit then some (c :: cs.takeWhile Char.isDigit)
    else firstDigitRun cs

/-- Decimal digits to the natural number they denote. -/
def digitsToNat (ds : List Char) : ℕ :=
  ds.foldl (fun a c => a * 10 + (c.toNat - '0'.toNat)) 0

/-- The `mem_data` dict built by `get_linux_memory_info`: for every line
holding a `:`, split once at it, strip the key, and take the first digit
run of the value as an integer (lines without a colon or without digits
contribute nothing). -/
def parseMemData (text : String) : List (String × ℕ) :=
  (splitOnNl text.data).foldl
    (fun d line =>
      match splitFirst ':' line with
      | none => d
      | some (k, v) =>
        match firstDigitRun v with
        | none => d
        | some ds => dictInsert (⟨stripCh k⟩ : String) (digitsToNat ds) d)
    []

/-- `SystemInfo.get_linux_memory_info` on the raw `/proc/meminfo` text:
the ordered field map it builds (swap fields included when present).
`usage_percent` is `(total - available) / total * 100` rounded to one
decimal place; the GB fields use `kb_to_gb`.  (Rational division by zero
is total in Lean; a zero `MemTotal` would raise in Python, which no claim
exercises.) -/
def get_linux_memory_info (text : String) : List (String × ℚ) :=
  let md := parseMemData text
  let i0 : List (String × ℚ) := []
  let i1 := match dictGet md "MemTotal" with
    | some t => i0 ++ [("total_ram_gb", kb_to_gb_num (t : ℤ))]
    | none => i0
  let i2 := match dictGet md "MemAvailable" with
    | some a => i1 ++ [("available_ram_gb", kb_to_gb_num (a : ℤ))]
    | none => i1
  let i3 := match dictGet md "MemTotal", dictGet md "MemAvailable" with
    | some t, some a =>
      let used : ℤ := (t : ℤ) - (a : ℤ)
      i2 ++ [("used_ram_gb", kb_to_gb_num used),
             ("usage_percent", pyRound1 ((used : ℚ) / (t : ℚ) * 100))]
    | _, _ => i2
  let i4 := match dictGet md "SwapTotal" with
    | some st => i3 ++ [("total_swap_gb", kb_to_gb_num (st : ℤ))]
    | none => i3
  match dictGet md "SwapFree", dictGet md "SwapTotal" with
  | some sf, some st => i4 ++ [("used_swap_gb", kb_to_gb_num ((st : ℤ) - (sf : ℤ)))]
  | _, _ => i4

/-! ## Console table rendering (`print_table`, lines 101-141) -/

/-- `row[i]` as the string cell (rows are lists of already-stringified
cells; out-of-range reads never happen where this is used, the default
mirrors nothing in the source). -/
def cellAt (row : List String) (i : ℕ) : String := row.getD i ""

/-- The column-width scan of `print_table`: start from the header's
length and fold `max` over the length of every row's cell in column `i`
(rows too short to have column `i` are skipped, as in the source). -/
def maxWidthAt (header : String) (rows : List (List String)) (i : ℕ) : ℕ :=
  rows.foldl
    (fun acc row => if i < row.length then max acc (cellAt row i).length else acc)
    header.length

/-- `col_widths`: per header column, `min(max_width + 2, 30)`. -/
def colWidths (headers : List String) (rows : List (List String)) : List ℕ :=
  headers.enum.map (fun p => min (maxWidthAt p.2 rows p.1 + 2) 30)

/-- Python `s[:n]` with a possibly negative bound. -/
def pySliceTo (s : String) (n : ℤ) : String :=
  if 0 ≤ n then ⟨s.data.take n.toNat⟩ else ⟨s.data.take (s.length - n.natAbs)⟩

/-- `f"{s:<{w}}"`: left-justify by padding with spaces to width `w`
(longer strings are left unchanged). -/
def padTo (s : String) (w : ℕ) : String :=
  s ++ ⟨List.replicate (w - s.length) ' '⟩

/-- The cell content after the truncation step of `print_table`: a cell
longer than `width - 2` becomes `cell_str[:width-5] + "..."`. -/
def renderCellContent (cell : String) (w : ℕ) : String :=
  if (w : ℤ) - 2 < (cell.length : ℤ) then pySliceTo cell ((w : ℤ) - 5) ++ "..."
  else cell

/-- A single rendered cell of a data row: truncation then padding. -/
def renderCell (cell : String) (w : ℕ) : String :=
  padTo (renderCellContent cell w) w

/-- One rendered data row (without the two leading indent spaces):
`zip(row, col_widths)` renders exactly the cells that have a width. -/
def renderRow (row : List String) (ws : List ℕ) : List String :=
  (row.zip ws).map (fun p => renderCell p.1 p.2)

/-- The spec side of the column-width formula: the maximum cell length
in column `i` over the rows that reach that column. -/
def colMaxCellLen (rows : List (List String)) (i : ℕ) : ℕ :=
  ((rows.filterMap (fun row => if i < row.length then some (cellAt row i) else none)).map
    String.length).foldl max 0

/-! ## JSON projection (`generate_json_output`, lines 1259-1267) -/

/-- A JSON value of the output document. -/
inductive Json where
  | str (s : String)
  | num (q : ℚ)
  | boolean (b : Bool)
  | obj (fields : List (String × Json))
  | arr (items : List Json)

/-- `generate_json_output`: the top-level document serialised by the one
`json.dumps` call, keyed exactly as the source builds `output_data`.
`data` is the aggregated `self.data`, `now_iso` the
`datetime.now().isoformat()` timestamp. -/
def generate_json_output (data : List (String × Json)) (now_iso : String) :
    List (String × Json) :=
  [("system_info", .obj data), ("generated_at", .str now_iso),
   ("script_version", .str "5.0"), ("script_language", .str "Python")]

/-! ## Network probe (`get_network_info`, lines 866-910) -/

/-- Per-interface data gathered by `get_network_interfaces` from the two
`ip` passes; every field is optional in the dict the source builds. -/
structure InterfaceInfo where
  state : Option String
  mac_address : Option String
  ipv4 : Option String
  ipv6 : Option String

/-- One row of the console "Network Interfaces" table, with the source's
`dict.get` defaults. -/
def interfaceRow (name : String) (info : InterfaceInfo) : List String :=
  [name, info.state.getD "Unknown", info.mac_address.getD "N/A",
   info.ipv4.getD "N/A", info.ipv6.getD "N/A"]

/-- `test_connectivity`, parameterised by the `ping` return code per
host: first reachable test host wins. -/
def test_connectivity (pingRc : String → ℤ) : String :=
  if pingRc "8.8.8.8" = 0 then "Connected"
  else if pingRc "google.com" = 0 then "Connected"
  else "No connectivity"

/-- The network Section stored into `self.data['network']`: the network
hardware fields plus (unless `brief`) the connectivity verdict
(`test_connectivity` never returns an empty string, so the
`if connectivity:` guard always passes). -/
def networkSection (hw : List (String × String)) (brief : Bool)
    (pingRc : String → ℤ) : List (String × String) :=
  let info := dictUpdate [] hw
  if brief then info
  else dictInsert "internet_connectivity" (test_connectivity pingRc) info

/-- What `get_network_info` produces: the data stored in the Report
(source of the JSON projection) and the rows of the console-only
interface table. -/
structure ProbeView where
  sectionData : List (String × String)
  consoleRows : List (List String)

/-- `get_network_info`, parameterised by the results of its external
calls: the interfaces table is printed but never stored in `self.data`. -/
def get_network_info (hw : List (String × String)) (brief : Bool)
    (pingRc : String → ℤ) (interfaces : List (String × InterfaceInfo)) :
    ProbeView :=
  { sectionData := networkSection hw brief pingRc
    consoleRows := interfaces.map (fun p => interfaceRow p.1 p.2) }

/-! ## DMI and graphics-driver fields (`get_dmi_info` lines 228-252,
`get_graphics_drivers` lines 595-612) -/

/-- The ordered `(field, sysfs path)` table of `get_dmi_info`. -/
def dmi_files : List (String × String) :=
  [("manufacturer", "/sys/class/dmi/id/sys_vendor"),
   ("product_name", "/sys/class/dmi/id/product_name"),
   ("product_version", "/sys/class/dmi/id/product_version"),
   ("serial_number", "/sys/class/dmi/id/product_serial"),
   ("bios_vendor", "/sys/class/dmi/id/bios_vendor"),
   ("bios_version", "/sys/class/dmi/id/bios_version"),
   ("bios_date", "/sys/class/dmi/id/bios_date"),
   ("board_name", "/sys/class/dmi/id/board_name"),
   ("board_vendor", "/sys/class/dmi/id/board_vendor")]

/-- Placeholder markers rejected by `get_dmi_info` (the empty string is
already rejected by Python truthiness). -/
def dmiJunk : List String := ["To be filled by O.E.M.", "Not Specified", ""]

/-- One iteration of the `get_dmi_info` loop body: field `p.1` is set to
the file content when it is truthy and not a junk marker, and to
`'Unknown'` otherwise. -/
def dmiStep (reader : String → Option String) (info : List (String × String))
    (p : String × String) : List (String × String) :=
  match reader p.2 with
  | some v =>
    if v ≠ "" ∧ v ∉ dmiJunk then dictInsert p.1 v info
    else dictInsert p.1 "Unknown" info
  | none => dictInsert p.1 "Unknown" info

/-- `get_dmi_info`, parameterised by the `safe_read_file` reader. -/
def get_dmi_info (reader : String → Option String) : List (String × String) :=
  dmi_files.foldl (dmiStep reader) []

/-- The candidate kernel modules of `get_graphics_drivers`. -/
def driver_modules : List String := ["i915", "nouveau", "nvidia", "amdgpu", "radeon"]

/-- `get_graphics_drivers`, parameterised by the `/sys/module/…`
existence check: the loaded candidates joined with `", "`, or the
`'Unknown'` sentinel when none is loaded. -/
def get_graphics_drivers (moduleLoaded : String → Bool) : List (String × String) :=
  let drivers := driver_modules.filter moduleLoaded
  if drivers ≠ [] then [("graphics_drivers", String.intercalate ", " drivers)]
  else [("graphics_drivers", "Unknown")]

/-! ## Run controller output (`run_all_checks` lines 1274-1308,
`print_section`/`print_info` lines 90-99, footer lines 1269-1272) -/

/-- The line printed by `print_section` (ANSI blue). -/
def sectionHeaderLine (title : String) : String :=
  "\n\x1b[0;34m=== " ++ title ++ " ===\x1b[0m"

/-- The line printed by `print_info` at indent 0 (ANSI green label). -/
def infoLine (label value : String) : String :=
  "\x1b[0;32m" ++ label ++ ":\x1b[0m " ++ value

/-- Console lines a probe prints: its section banner, then one line per
displayed label/value pair. -/
def probeLines (title : String) (fields : List (String × String)) : List String :=
  sectionHeaderLine title :: fields.map (fun p => infoLine p.1 p.2)

/-- The four header lines printed by `run_all_checks` in console mode. -/
def consoleHeaderLines (now : String) : List String :=
  ["\x1b[0;36m╔" ++ (⟨List.replicate 62 '═'⟩ : String) ++ "╗\x1b[0m",
   "\x1b[0;36m║\x1b[0m\x1b[1;37m           Comprehensive System Information v5.0           \x1b[0m\x1b[0;36m║\x1b[0m",
   "\x1b[0;36m╚" ++ (⟨List.replicate 62 '═'⟩ : String) ++ "╝\x1b[0m",
   "\x1b[1;33mGenerated: " ++ now ++ "\x1b[0m"]

/-- The `KeyboardInterrupt` handler's message. -/
def interruptNotice : String := "\n\x1b[1;33mScript interrupted by user.\x1b[0m"

/-- The two footer lines of `generate_console_footer`. -/
def consoleFooterLines : List String :=
  ["\n\x1b[0;32mSystem information scan completed.\x1b[0m",
   "\x1b[0;36mScript: Python System Information v5.0\x1b[0m"]

/-- `run_all_checks` when a `KeyboardInterrupt` arrives after the first
`k` probes (§5: the interrupt takes effect between probes): everything
already printed stays on stdout — the console-mode header and each
completed probe's lines, nothing in JSON mode since the print helpers
check `output_json` — then the handler prints its notice and the process
exits via `sys.exit(1)`.  `probes` maps each probe to the console lines
it would print. -/
def runInterrupted (json : Bool) (now : String) (probes : List (List String))
    (k : ℕ) : List String × ℕ :=
  ((if json then [] else consoleHeaderLines now)
     ++ ((probes.take k).map (fun p => if json then [] else p)).flatten
     ++ [interruptNotice], 1)

/-- A completed `run_all_checks`: console mode prints per probe and ends
with the footer; JSON mode prints nothing until the one `json.dumps`
document (`jsonDoc`) at the end.  Exit code 0. -/
def runCompleted (json : Bool) (now : String) (probes : List (List String))
    (jsonDoc : String) : List String × ℕ :=
  ((if json then [] else consoleHeaderLines now)
     ++ (probes.map (fun p => if json then [] else p)).flatten
     ++ (if json then [jsonDoc] else consoleFooterLines), 0)

/-! ## Power probe (`get_battery_info` lines 1114-1146,
`get_ac_adapter_info` lines 1148-1163, `get_power_info` lines 1165-1191) -/

/-- The sysfs files read per battery by `get_battery_info`. -/
structure PsFiles where
  capacity : Option String
  status : Option String
  technology : Option String
  manufacturer : Option String

/-- Store a field when the read content is truthy (present, nonempty). -/
def addTruthy (key : String) (v : Option String)
    (info : List (String × String)) : List (String × String) :=
  match v with
  | some s => if s ≠ "" then dictInsert key s info else info
  | none => info

/-- `get_battery_info`, parameterised by the `BAT*` glob result (name
and file contents per battery): per battery a lowercased-name key stem,
carrying the running count from the second battery on; with zero
batteries, the single explicit desktop fact. -/
def get_battery_info (batteries : List (String × PsFiles)) :
    List (String × String) :=
  let info := (batteries.enum).foldl
    (fun info p =>
      let count := p.1 + 1
      let stem := if count = 1 then pyLower p.2.1 ++ "_"
        else pyLower p.2.1 ++ "_" ++ toString count ++ "_"
      addTruthy (stem ++ "manufacturer") p.2.2.manufacturer
        (addTruthy (stem ++ "technology") p.2.2.technology
          (addTruthy (stem ++ "status") p.2.2.status
            (addTruthy (stem ++ "capacity_percent") p.2.2.capacity info))))
    []
  if batteries.length = 0 then
    dictInsert "battery_status" "No battery detected (Desktop system)" info
  else info

/-- One iteration of the `get_ac_adapter_info` loop body: when the
`online` file content is truthy, store the adapter's status under a
lowercased-name key. -/
def acStep (info : List (String × String)) (p : String × Option String) :
    List (String × String) :=
  match p.2 with
  | some online =>
    if online ≠ "" then
      dictInsert (pyLower p.1 ++ "_status")
        (if online = "1" then "Connected" else "Disconnected") info
    else info
  | none => info

/-- `get_ac_adapter_info`, parameterised by the `A[CD]*` glob result:
adapter name and `online` file content. -/
def get_ac_adapter_info (adapters : List (String × Option String)) :
    List (String × String) :=
  adapters.foldl acStep []

/-- `get_power_info`: the power Section merges the battery fields, then
the AC adapter fields, into one dict. -/
def get_power_info (batteries : List (String × PsFiles))
    (adapters : List (String × Option String)) : List (String × String) :=
  dictUpdate (dictUpdate [] (get_battery_info batteries))
    (get_ac_adapter_info adapters)

/-! ## Thermal zones (`get_temperature_info`, lines 1224-1238) -/

/-- Python `str.isdigit()` on one character, over the character
repertoire this development reasons about: true for the ASCII decimal
digits and also for the superscript and subscript digits, which carry
`Numeric_Type=Digit` in Unicode without being decimal digits (Python's
digit class is wider than its decimal class). -/
def pyCharIsDigit (c : Char) : Bool :=
  c.isDigit || c ∈ ['⁰', '¹', '²', '³', '⁴', '⁵', '⁶', '⁷', '⁸', '⁹',
                    '₀', '₁', '₂', '₃', '₄', '₅', '₆', '₇', '₈', '₉']

/-- Python `int(s)` on a string that already passed the `isdigit()`
guard: it succeeds only when every character is a decimal digit;
digit-class characters such as `'²'` make it raise `ValueError`. -/
def pyIntOfDigits (l : List Char) : Option ℕ :=
  if l ≠ [] ∧ l.all Char.isDigit then some (digitsToNat l) else none

/-- What one iteration of the thermal-zone loop does for a zone
(zone name, raw `temp` content read by `safe_read_file`). -/
inductive ZoneOutcome where
  | skipped
  | entry (row : List String) (field : String × String)
  | valueError

/-- The outcome of one sysfs thermal zone: skipped when the guard
`temp_raw and temp_raw.isdigit()` rejects the content; a table row and a
`thermal_zones` entry (millidegrees floor-divided by 1000) when
`int(temp_raw)` succeeds; and `valueError` when the guard passes but the
conversion raises — an exception that escapes `get_temperature_info`. -/
def zoneOutcome (zone : String × Option String) : ZoneOutcome :=
  match zone.2 with
  | some raw =>
    if raw ≠ "" ∧ raw.data.all pyCharIsDigit then
      match pyIntOfDigits raw.data with
      | some n =>
        .entry ["Thermal Zone", zone.1, toString (n / 1000) ++ "°C"]
          (zone.1, toString (n / 1000) ++ "°C")
      | none => .valueError
    else .skipped
  | none => .skipped

/-- The thermal-zone pass of `get_temperature_info`: zones in glob
order; `none` models the uncaught `ValueError` aborting the pass (and,
through `run_all_checks`, the whole run with exit code 1), otherwise the
accumulated table rows and `thermal_zones` dict. -/
def thermalZonePass (zones : List (String × Option String)) :
    Option (List (List String) × List (String × String)) :=
  zones.foldl
    (fun acc z =>
      match acc with
      | none => none
      | some (rows, d) =>
        match zoneOutcome z with
        | .skipped => some (rows, d)
        | .entry r f => some (rows ++ [r], dictInsert f.1 f.2 d)
        | .valueError => none)
    (some ([], []))

end Sysinfo

namespace Sysinfo

/-! ## Claim C1 -/

/-- C1: for a Command Executor invocation that timed out or whose command
does not exist, `run_command` returns empty stdout, a nonempty stderr
text, and a nonzero exit code; being a total function, it raises nothing
outward. -/
theorem run_command_timeout_or_missing_safe (o : SubprocOutcome)
    (h : o = .timedOut ∨ missingCommandOutcome o) :
    (run_command o).1 = "" ∧ (run_command o).2.1 ≠ "" ∧ (run_command o).2.2 ≠ 0 := by
  rcases h with h | h
  · subst h
    exact ⟨rfl, by decide, by decide⟩
  · rcases h with ⟨msg, rfl, hmsg⟩ | ⟨err, rc, rfl, herr, hrc⟩
    · exact ⟨rfl, hmsg, one_ne_zero⟩
    · exact ⟨rfl, herr, hrc⟩

/-- Witness for C1 at the concrete timeout outcome. -/
theorem run_command_timeout_or_missing_safe_witness :
    (run_command .timedOut).1 = "" ∧ (run_command .timedOut).2.1 ≠ "" ∧
      (run_command .timedOut).2.2 ≠ 0 :=
  run_command_timeout_or_missing_safe .timedOut (Or.inl rfl)

/-! ## Claim C2 -/

/-- C2: on a `/proc/meminfo` text with `MemTotal: 16000000 kB` and
`MemAvailable: 8000000 kB`, the memory parser produces exactly the fields
`total_ram_gb = 15.26`, `available_ram_gb = 7.63`, `used_ram_gb = 7.63`
and `usage_percent = 50.0`. -/
theorem meminfo_scenario_16g :
    get_linux_memory_info "MemTotal: 16000000 kB\nMemAvailable: 8000000 kB"
      = [("total_ram_gb", (1526 : ℚ)/100), ("available_ram_gb", (763 : ℚ)/100),
         ("used_ram_gb", (763 : ℚ)/100), ("usage_percent", (50 : ℚ))] := by
  have hp : parseMemData "MemTotal: 16000000 kB\nMemAvailable: 8000000 kB"
      = [("MemTotal", 16000000), ("MemAvailable", 8000000)] := by decide
  have h1 : dictGet [("MemTotal", 16000000), ("MemAvailable", 8000000)] "MemTotal"
      = some 16000000 := by decide
  have h2 : dictGet [("MemTotal", 16000000), ("MemAvailable", 8000000)] "MemAvailable"
      = some 8000000 := by decide
  have h3 : dictGet [("MemTotal", 16000000), ("MemAvailable", 8000000)] "SwapTotal"
      = none := by decide
  have h4 : dictGet [("MemTotal", 16000000), ("MemAvailable", 8000000)] "SwapFree"
      = none := by decide
  simp only [get_linux_memory_info, hp, h1, h2, h3, h4]
  norm_num [kb_to_gb_num, pyRound2, pyRound1, rndHalfEven]

/-! ## Claim C8: properties of the rounding helpers -/

theorem rndHalfEven_ge_floor (q : ℚ) : ⌊q⌋ ≤ rndHalfEven q := by
  simp only [rndHalfEven]
  split_ifs <;> omega

theorem rndHalfEven_le_floor_add_one (q : ℚ) : rndHalfEven q ≤ ⌊q⌋ + 1 := by
  simp only [rndHalfEven]
  split_ifs <;> omega

theorem rndHalfEven_mono {a b : ℚ} (hab : a ≤ b) :
    rndHalfEven a ≤ rndHalfEven b := by
  have hfl : ⌊a⌋ ≤ ⌊b⌋ := Int.floor_le_floor hab
  rcases lt_or_eq_of_le hfl with hlt | heq
  · have h1 := rndHalfEven_le_floor_add_one a
    have h2 := rndHalfEven_ge_floor b
    omega
  · simp only [rndHalfEven, ← heq]
    split_ifs <;> first | omega | linarith

theorem rndHalfEven_nonneg {q : ℚ} (hq : 0 ≤ q) : 0 ≤ rndHalfEven q := by
  have h1 := rndHalfEven_ge_floor q
  have h2 : (0 : ℤ) ≤ ⌊q⌋ := Int.floor_nonneg.mpr hq
  omega

theorem pyRound2_mono {a b : ℚ} (hab : a ≤ b) : pyRound2 a ≤ pyRound2 b := by
  have h := rndHalfEven_mono (by linarith : a * 100 ≤ b * 100)
  have h' : ((rndHalfEven (a * 100) : ℤ) : ℚ) ≤ ((rndHalfEven (b * 100) : ℤ) : ℚ) := by
    exact_mod_cast h
  unfold pyRound2
  linarith

theorem pyRound2_nonneg {q : ℚ} (hq : 0 ≤ q) : 0 ≤ pyRound2 q := by
  have h := rndHalfEven_nonneg (by linarith : (0 : ℚ) ≤ q * 100)
  have h' : (0 : ℚ) ≤ ((rndHalfEven (q * 100) : ℤ) : ℚ) := by exact_mod_cast h
  unfold pyRound2
  linarith

/-- C8: `kb_to_gb` and `bytes_to_gb` are monotone for all integer
inputs `x ≤ y` (no sign restriction); for every non-negative input `z`
the results are non-negative and integer multiples of `1/100` (exactly
two decimal places); an input whose `int()` conversion fails yields
`0.0`, and totality models that no exception is raised. -/
theorem conversions_monotone_nonneg_rounded (x y z : ℤ) (v : PyVal)
    (hxy : x ≤ y) (hz : 0 ≤ z) (hv : pyInt v = none) :
    kb_to_gb (.intV x) ≤ kb_to_gb (.intV y) ∧
    bytes_to_gb (.intV x) ≤ bytes_to_gb (.intV y) ∧
    0 ≤ kb_to_gb (.intV z) ∧ 0 ≤ bytes_to_gb (.intV z) ∧
    (∃ n : ℤ, kb_to_gb (.intV z) = (n : ℚ) / 100) ∧
    (∃ m : ℤ, bytes_to_gb (.intV z) = (m : ℚ) / 100) ∧
    kb_to_gb v = 0 ∧ bytes_to_gb v = 0 := by
  have hxq : (x : ℚ) ≤ (y : ℚ) := by exact_mod_cast hxy
  have hz0 : (0 : ℚ) ≤ (z : ℚ) := by exact_mod_cast hz
  refine ⟨?_, ?_, ?_, ?_, ⟨rndHalfEven ((z : ℚ) / 1024 ^ 2 * 100), rfl⟩,
    ⟨rndHalfEven ((z : ℚ) / 1024 ^ 3 * 100), rfl⟩, ?_, ?_⟩
  · exact pyRound2_mono (by gcongr)
  · exact pyRound2_mono (by gcongr)
  · exact pyRound2_nonneg (div_nonneg hz0 (by norm_num))
  · exact pyRound2_nonneg (div_nonneg hz0 (by norm_num))
  · simp [kb_to_gb, hv]
  · simp [bytes_to_gb, hv]

/-- Witness for C8 at the negative-to-positive pair `x = -2`, `y = 1`,
the non-negative input `z = 0`, and `v = None`. -/
theorem conversions_monotone_nonneg_rounded_witness :
    kb_to_gb (.intV (-2)) ≤ kb_to_gb (.intV 1) ∧
    bytes_to_gb (.intV (-2)) ≤ bytes_to_gb (.intV 1) ∧
    0 ≤ kb_to_gb (.intV 0) ∧ 0 ≤ bytes_to_gb (.intV 0) ∧
    (∃ n : ℤ, kb_to_gb (.intV 0) = (n : ℚ) / 100) ∧
    (∃ m : ℤ, bytes_to_gb (.intV 0) = (m : ℚ) / 100) ∧
    kb_to_gb .noneV = 0 ∧ bytes_to_gb .noneV = 0 :=
  conversions_monotone_nonneg_rounded (-2) 1 0 .noneV (by norm_num) le_rfl rfl

end Sysinfo

namespace Sysinfo

/-! ## Claim C7: column widths and cell truncation in `print_table` -/

theorem le_foldl_max_init (l : List ℕ) (a : ℕ) : a ≤ l.foldl max a := by
  induction l generalizing a with
  | nil => exact le_rfl
  | cons y ys ih => exact le_trans (le_max_left a y) (ih (max a y))

theorem le_foldl_max (l : List ℕ) (a x : ℕ) (hx : x ∈ l) : x ≤ l.foldl max a := by
  induction l generalizing a with
  | nil => cases hx
  | cons y ys ih =>
    rcases List.mem_cons.mp hx with rfl | hx'
    · exact le_trans (le_max_right a x) (le_foldl_max_init ys (max a x))
    · exact ih _ hx'

theorem foldl_max_assoc (l : List ℕ) (a b : ℕ) :
    l.foldl max (max a b) = max a (l.foldl max b) := by
  induction l generalizing b with
  | nil => rfl
  | cons x xs ih => simp only [List.foldl]; rw [max_assoc, ih]

theorem maxWidthAt_aux (rows : List (List String)) (i a : ℕ) :
    rows.foldl (fun acc row => if i < row.length then max acc (cellAt row i).length else acc) a
      = max a (colMaxCellLen rows i) := by
  induction rows generalizing a with
  | nil => simp [colMaxCellLen]
  | cons r rs ih =>
    by_cases hl : i < r.length
    · simp only [List.foldl, hl, if_true, ih, colMaxCellLen, List.filterMap_cons, List.map_cons,
        List.foldl_cons]
      rw [Nat.max_comm 0 (cellAt r i).length, foldl_max_assoc]
      have : colMaxCellLen rs i
          = ((rs.filterMap (fun row => if i < row.length then some (cellAt row i) else none)).map
            String.length).foldl max 0 := rfl
      rw [← this, max_assoc]
    · simp only [List.foldl, hl, if_false, ih, colMaxCellLen, List.filterMap_cons]

theorem maxWidthAt_eq (h : String) (rows : List (List String)) (i : ℕ) :
    maxWidthAt h rows i = max h.length (colMaxCellLen rows i) :=
  maxWidthAt_aux rows i h.length

theorem colWidths_getD (headers : List String) (rows : List (List String)) (i : ℕ)
    (hi : i < headers.length) :
    (colWidths headers rows).getD i 0 = min (maxWidthAt (headers.getD i "") rows i + 2) 30 := by
  unfold colWidths
  rw [List.getD_eq_getElem _ _ (by simpa using hi)]
  simp [List.getElem_enum, List.getD, List.getElem?_eq_getElem hi]


theorem padTo_length (s : String) (w : ℕ) : (padTo s w).length = max s.length w := by
  simp only [padTo, String.length_append]
  show s.length + (List.replicate (w - s.length) ' ').length = _
  rw [List.length_replicate]
  omega

theorem pySliceTo_length_of_nonneg (s : String) (n : ℤ) (hn : 0 ≤ n) :
    (pySliceTo s n).length = min n.toNat s.length := by
  simp only [pySliceTo, if_pos hn]
  show (s.data.take n.toNat).length = _
  rw [List.length_take]
  rfl

theorem cell_le_maxWidthAt (h : String) (rows : List (List String)) (row : List String)
    (i : ℕ) (hrow : row ∈ rows) (hir : i < row.length) :
    (cellAt row i).length ≤ maxWidthAt h rows i := by
  rw [maxWidthAt_eq]
  refine le_trans ?_ (le_max_right _ _)
  unfold colMaxCellLen
  exact le_foldl_max _ _ _
    (List.mem_map_of_mem _ (List.mem_filterMap.mpr ⟨row, hrow, by simp [hir]⟩))

theorem print_table_column_cap (headers : List String) (rows : List (List String))
    (row : List String) (i : ℕ) (hrow : row ∈ rows) (hih : i < headers.length)
    (hir : i < row.length) :
    (colWidths headers rows).getD i 0
      = min (max (headers.getD i "").length (colMaxCellLen rows i) + 2) 30 ∧
    (renderCell (cellAt row i) ((colWidths headers rows).getD i 0)).length ≤ 30 ∧
    ((((colWidths headers rows).getD i 0 : ℤ) - 2 < ((cellAt row i).length : ℤ)) →
      ∃ t, renderCellContent (cellAt row i) ((colWidths headers rows).getD i 0)
        = t ++ "...") := by
  have hw := colWidths_getD headers rows i hih
  have hM := maxWidthAt_eq (headers.getD i "") rows i
  have hcell := cell_le_maxWidthAt (headers.getD i "") rows row i hrow hir
  refine ⟨by rw [hw, hM], ?_, ?_⟩
  · set w := (colWidths headers rows).getD i 0 with hwdef
    set M := maxWidthAt (headers.getD i "") rows i with hMdef
    by_cases hcap : M + 2 ≤ 30
    · have hw' : w = M + 2 := by omega
      have hnt : ¬ ((w : ℤ) - 2 < ((cellAt row i).length : ℤ)) := by
        push_neg
        have : (cellAt row i).length ≤ M := hcell
        omega
      rw [renderCell, renderCellContent, if_neg hnt, padTo_length]
      have : (cellAt row i).length ≤ M := hcell
      omega
    · have hw' : w = 30 := by omega
      by_cases ht : ((w : ℤ) - 2 < ((cellAt row i).length : ℤ))
      · rw [renderCell, renderCellContent, if_pos ht, padTo_length]
        have hlen : (pySliceTo (cellAt row i) ((w : ℤ) - 5) ++ "...").length
            = min ((w : ℤ) - 5).toNat (cellAt row i).length + 3 := by
          rw [String.length_append, pySliceTo_length_of_nonneg _ _ (by omega)]
          rfl
        rw [hlen]
        omega
      · rw [renderCell, renderCellContent, if_neg ht, padTo_length]
        omega
  · intro ht
    rw [renderCellContent, if_pos ht]
    exact ⟨_, rfl⟩


/-- Witness for C7: a one-column table whose single cell is 36
characters long; the column is capped at width 30 and the cell is
truncated with a trailing ellipsis. -/
theorem print_table_column_cap_witness :
    (colWidths ["Source"] [["abcdefghijklmnopqrstuvwxyz0123456789"]]).getD 0 0
      = min (max ((["Source"].getD 0 "").length)
          (colMaxCellLen [["abcdefghijklmnopqrstuvwxyz0123456789"]] 0) + 2) 30 ∧
    (renderCell (cellAt ["abcdefghijklmnopqrstuvwxyz0123456789"] 0)
      ((colWidths ["Source"] [["abcdefghijklmnopqrstuvwxyz0123456789"]]).getD 0 0)).length ≤ 30 ∧
    ((((colWidths ["Source"] [["abcdefghijklmnopqrstuvwxyz0123456789"]]).getD 0 0 : ℤ) - 2
        < ((cellAt ["abcdefghijklmnopqrstuvwxyz0123456789"] 0).length : ℤ)) →
      ∃ t, renderCellContent (cellAt ["abcdefghijklmnopqrstuvwxyz0123456789"] 0)
        ((colWidths ["Source"] [["abcdefghijklmnopqrstuvwxyz0123456789"]]).getD 0 0)
          = t ++ "...") :=
  print_table_column_cap ["Source"] [["abcdefghijklmnopqrstuvwxyz0123456789"]]
    ["abcdefghijklmnopqrstuvwxyz0123456789"] 0
    (List.mem_singleton.mpr rfl) (by decide) (by decide)

end Sysinfo
namespace Sysinfo

/- membership helpers for insertion-ordered dicts -/

theorem mem_dictInsert_self (k : String) (v : α) (d : List (String × α)) :
    (k, v) ∈ dictInsert k v d := by
  induction d with
  | nil => exact List.mem_singleton.mpr rfl
  | cons q rest ih =>
    rcases q with ⟨k', v'⟩
    by_cases h : k' = k
    · simp [dictInsert, h]
    · simp only [dictInsert, if_neg h]
      exact List.mem_cons_of_mem _ ih

theorem mem_dictInsert_of_ne (k k' : String) (v : α) (v' : α)
    (d : List (String × α)) (hne : k' ≠ k) (hmem : (k, v) ∈ d) :
    (k, v) ∈ dictInsert k' v' d := by
  induction d with
  | nil => cases hmem
  | cons q rest ih =>
    rcases q with ⟨k0, v0⟩
    rcases List.mem_cons.mp hmem with heq | hmem'
    · cases heq
      simp only [dictInsert]
      by_cases h : k = k'
      · exact absurd h.symm hne
      · rw [if_neg h]
        exact List.mem_cons_self _ _
    · simp only [dictInsert]
      by_cases h : k0 = k'
      · rw [if_pos h]
        exact List.mem_cons_of_mem _ hmem'
      · rw [if_neg h]
        exact List.mem_cons_of_mem _ (ih hmem')

/- C5 fold lemmas -/

theorem dmiStep_inserts (reader : String → Option String)
    (info : List (String × String)) (p : String × String) :
    ∃ w, dmiStep reader info p = dictInsert p.1 w info := by
  unfold dmiStep
  cases reader p.2 with
  | none => exact ⟨"Unknown", rfl⟩
  | some v =>
    dsimp only
    by_cases h : v ≠ "" ∧ v ∉ dmiJunk
    · exact ⟨v, if_pos h⟩
    · exact ⟨"Unknown", if_neg h⟩

theorem foldl_dmiStep_preserve (reader : String → Option String) :
    ∀ (files : List (String × String)) (init : List (String × String))
      (key : String) (v : String), (∀ q ∈ files, q.1 ≠ key) → (key, v) ∈ init →
      (key, v) ∈ files.foldl (dmiStep reader) init := by
  intro files
  induction files with
  | nil => intro init key v _ hmem; exact hmem
  | cons q rest ih =>
    intro init key v hnot hmem
    simp only [List.foldl_cons]
    refine ih _ key v (fun q' hq' => hnot q' (List.mem_cons_of_mem _ hq')) ?_
    obtain ⟨w, hw⟩ := dmiStep_inserts reader init q
    rw [hw]
    exact mem_dictInsert_of_ne _ _ _ _ _ (hnot q (List.mem_cons_self _ _)) hmem

theorem foldl_dmiStep_mem (reader : String → Option String) :
    ∀ (files : List (String × String)) (init : List (String × String))
      (key path : String), (key, path) ∈ files →
      (files.map Prod.fst).Nodup → reader path = none →
      (key, "Unknown") ∈ files.foldl (dmiStep reader) init := by
  intro files
  induction files with
  | nil => intro init key path hmem _ _; cases hmem
  | cons q rest ih =>
    intro init key path hmem hnd hr
    simp only [List.map_cons, List.nodup_cons] at hnd
    simp only [List.foldl_cons]
    rcases List.mem_cons.mp hmem with heq | hmem'
    · cases heq
      refine foldl_dmiStep_preserve reader rest _ key "Unknown" ?_ ?_
      · intro q' hq' hcontra
        have hmap : q'.1 ∈ rest.map Prod.fst := List.mem_map_of_mem Prod.fst hq'
        rw [hcontra] at hmap
        exact hnd.1 hmap
      · have h1 : dmiStep reader init (key, path) = dictInsert key "Unknown" init := by
          unfold dmiStep
          rw [hr]
        rw [h1]
        exact mem_dictInsert_self _ _ _
    · exact ih _ key path hmem' hnd.2 hr

/-- C5 counterexample: with every DMI source file unreadable, the
hardware fields are not omitted — all nine are stored with the
placeholder `'Unknown'`; likewise `get_graphics_drivers` stores
`'Unknown'` when no candidate module is loaded. -/
theorem dmi_unknown_sentinels_concrete :
    get_dmi_info (fun _ => none)
      = [("manufacturer", "Unknown"), ("product_name", "Unknown"),
         ("product_version", "Unknown"), ("serial_number", "Unknown"),
         ("bios_vendor", "Unknown"), ("bios_version", "Unknown"),
         ("bios_date", "Unknown"), ("board_name", "Unknown"),
         ("board_vendor", "Unknown")] ∧
    get_graphics_drivers (fun _ => false) = [("graphics_drivers", "Unknown")] := by
  constructor <;> rfl

/-- C5 amended: a DMI field whose source file is missing or unreadable is
not omitted; it is present with the placeholder value `'Unknown'`. -/
theorem dmi_unknown_for_missing_source (reader : String → Option String)
    (key path : String) (hmem : (key, path) ∈ dmi_files)
    (hr : reader path = none) :
    (key, "Unknown") ∈ get_dmi_info reader :=
  foldl_dmiStep_mem reader dmi_files [] key path hmem (by decide) hr

/-- Witness for the amended C5 at an all-failing reader and the
`manufacturer` field. -/
theorem dmi_unknown_for_missing_source_witness :
    ("manufacturer", "Unknown") ∈ get_dmi_info (fun _ => none) :=
  dmi_unknown_for_missing_source (fun _ => none) "manufacturer"
    "/sys/class/dmi/id/sys_vendor" (by decide) rfl

end Sysinfo
namespace Sysinfo

/-- C3 counterexample: a discovered interface is rendered in the console
table but the stored network Section — the JSON source — is empty. -/
theorem network_interfaces_console_only_concrete :
    (get_network_info [] true (fun _ => 1)
      [("eth0", InterfaceInfo.mk (some "UP") (some "aa:bb:cc:dd:ee:ff")
        (some "192.168.1.2/24") none)]).consoleRows
      = [["eth0", "UP", "aa:bb:cc:dd:ee:ff", "192.168.1.2/24", "N/A"]] ∧
    (get_network_info [] true (fun _ => 1)
      [("eth0", InterfaceInfo.mk (some "UP") (some "aa:bb:cc:dd:ee:ff")
        (some "192.168.1.2/24") none)]).sectionData = [] := by
  constructor <;> rfl

/-- C3 amended: the stored network Section (hence its JSON projection) is
independent of the discovered interfaces; the interface table exists only
in the console projection. -/
theorem network_section_independent_of_interfaces (hw : List (String × String))
    (brief : Bool) (pingRc : String → ℤ)
    (ifs ifs' : List (String × InterfaceInfo)) :
    (get_network_info hw brief pingRc ifs).sectionData
      = (get_network_info hw brief pingRc ifs').sectionData ∧
    (get_network_info hw brief pingRc ifs).consoleRows
      = ifs.map (fun p => interfaceRow p.1 p.2) :=
  ⟨rfl, rfl⟩

/-- C4 counterexample: at a concrete Report the top level of the JSON
document has the four keys `system_info`, `generated_at`,
`script_version` and `script_language` — there is no `schema_version`. -/
theorem json_top_level_no_schema_version :
    ((generate_json_output [] "2026-10-12T00:00:00").map Prod.fst
      = ["system_info", "generated_at", "script_version", "script_language"]) ∧
    "schema_version" ∉ (generate_json_output [] "2026-10-12T00:00:00").map Prod.fst := by
  constructor
  · rfl
  · decide

/-- C4 amended: for every Report and timestamp, the JSON document's top
level consists of the `system_info` object, the `generated_at`
timestamp, the version tag under the key `script_version`, and an
additional `script_language` tag. -/
theorem json_top_level_keys (data : List (String × Json)) (ts : String) :
    generate_json_output data ts
      = [("system_info", .obj data), ("generated_at", .str ts),
         ("script_version", .str "5.0"), ("script_language", .str "Python")] ∧
    (generate_json_output data ts).map Prod.fst
      = ["system_info", "generated_at", "script_version", "script_language"] :=
  ⟨rfl, rfl⟩

/-- C6 counterexample: in console mode, a run interrupted after its first
probe has already emitted that probe's section banner — partial output
is on stdout despite the interrupt. -/
theorem interrupt_partial_console_output :
    sectionHeaderLine "SYSTEM INFORMATION"
      ∈ (runInterrupted false "2026-10-12 00:00:00"
          [probeLines "SYSTEM INFORMATION" []] 1).1 := by
  simp [runInterrupted, probeLines]

/-- C6 amended: an interrupt always exits with code 1; in JSON mode no
report output has been emitted (only the interrupt notice), and a
completed JSON run emits the document as one unit; in console mode the
lines of the probes completed before the interrupt have already been
printed. -/
theorem interrupt_exit_and_output (json : Bool) (now : String)
    (probes : List (List String)) (k : ℕ) (jsonDoc : String) :
    (runInterrupted json now probes k).2 = 1 ∧
    (runInterrupted true now probes k).1 = [interruptNotice] ∧
    (runCompleted true now probes jsonDoc).1 = [jsonDoc] ∧
    (runInterrupted false now probes k).1
      = consoleHeaderLines now ++ (probes.take k).flatten ++ [interruptNotice] := by
  refine ⟨rfl, ?_, ?_, ?_⟩ <;>
    simp [runInterrupted, runCompleted, List.map_const]

/-- C9 counterexample: with zero battery glob matches but one AC adapter
entry, the power Section holds two fields, not exactly one. -/
theorem power_section_two_fields_with_adapter :
    get_power_info [] [("AC", some "1")]
      = [("battery_status", "No battery detected (Desktop system)"),
         ("ac_status", "Connected")] := by rfl

theorem mem_of_mem_dictInsert (k : String) (v : α) (d : List (String × α))
    (q : String × α) (h : q ∈ dictInsert k v d) : q = (k, v) ∨ q ∈ d := by
  induction d with
  | nil => simpa [dictInsert] using h
  | cons p rest ih =>
    simp only [dictInsert] at h
    by_cases hp : p.1 = k
    · rw [if_pos hp] at h
      rcases List.mem_cons.mp h with h | h
      · exact Or.inl h
      · exact Or.inr (List.mem_cons_of_mem _ h)
    · rw [if_neg hp] at h
      rcases List.mem_cons.mp h with h | h
      · exact Or.inr (h ▸ List.mem_cons_self _ _)
      · rcases ih h with h | h
        · exact Or.inl h
        · exact Or.inr (List.mem_cons_of_mem _ h)

theorem mem_acStep (info : List (String × String)) (p : String × Option String)
    (q : String × String) (h : q ∈ acStep info p) :
    q ∈ info ∨ q.1 = pyLower p.1 ++ "_status" := by
  unfold acStep at h
  cases hp : p.2 with
  | none => rw [hp] at h; exact Or.inl h
  | some online =>
    rw [hp] at h
    dsimp only at h
    by_cases ho : online ≠ ""
    · rw [if_pos ho] at h
      rcases mem_of_mem_dictInsert _ _ _ _ h with h | h
      · exact Or.inr (by rw [h])
      · exact Or.inl h
    · rw [if_neg ho] at h
      exact Or.inl h

theorem mem_foldl_acStep :
    ∀ (adapters : List (String × Option String)) (init : List (String × String))
      (q : String × String), q ∈ adapters.foldl acStep init →
      q ∈ init ∨ ∃ p ∈ adapters, q.1 = pyLower p.1 ++ "_status" := by
  intro adapters
  induction adapters with
  | nil => intro init q h; exact Or.inl h
  | cons p rest ih =>
    intro init q h
    simp only [List.foldl_cons] at h
    rcases ih _ q h with h1 | ⟨p1, hp1, he⟩
    · rcases mem_acStep init p q h1 with h2 | h2
      · exact Or.inl h2
      · exact Or.inr ⟨p, List.mem_cons_self _ _, h2⟩
    · exact Or.inr ⟨p1, List.mem_cons_of_mem _ hp1, he⟩

theorem mem_dictUpdate_of_ne (new : List (String × α)) :
    ∀ (d : List (String × α)) (k : String) (v : α), (k, v) ∈ d →
      (∀ q ∈ new, q.1 ≠ k) → (k, v) ∈ dictUpdate d new := by
  induction new with
  | nil => intro d k v hmem _; exact hmem
  | cons p rest ih =>
    intro d k v hmem hne
    simp only [dictUpdate, List.foldl_cons]
    exact ih _ k v
      (mem_dictInsert_of_ne _ _ _ _ _ (hne p (List.mem_cons_self _ _)) hmem)
      (fun q hq => hne q (List.mem_cons_of_mem _ hq))

theorem adapter_key_ne_battery_status (name : String)
    (hA : name.data.head? = some 'A') :
    pyLower name ++ "_status" ≠ "battery_status" := by
  intro hcontra
  have hdata := congrArg String.data hcontra
  rcases hd : name.data with _ | ⟨c, cs⟩
  · rw [hd] at hA
    cases hA
  · rw [hd] at hA
    have hc : c = 'A' := by
      simpa using hA
    subst hc
    have : (pyLower name ++ "_status").data
        = 'a' :: (cs.map Char.toLower ++ "_status".data) := by
      show (pyLower name).data ++ "_status".data = _
      simp [pyLower, hd]
    rw [this] at hdata
    cases hdata

theorem acStep_no_field (info : List (String × String))
    (p : String × Option String) (h : p.2 = none ∨ p.2 = some "") :
    acStep info p = info := by
  unfold acStep
  rcases h with h | h <;> rw [h]
  dsimp only
  rw [if_neg (by simp)]

theorem foldl_acStep_no_fields :
    ∀ (adapters : List (String × Option String))
      (init : List (String × String)),
      (∀ p ∈ adapters, p.2 = none ∨ p.2 = some "") →
      adapters.foldl acStep init = init := by
  intro adapters
  induction adapters with
  | nil => intro init _; rfl
  | cons p rest ih =>
    intro init h
    simp only [List.foldl_cons]
    rw [acStep_no_field init p (h p (List.mem_cons_self _ _))]
    exact ih init (fun q hq => h q (List.mem_cons_of_mem _ hq))

/-- C9 amended: with zero battery glob matches the power Section always
contains `battery_status = "No battery detected (Desktop system)"`
(adapter names start with `A`, so no adapter field can displace it), and
it is the only field whenever every `A[CD]*` adapter match has a missing
or empty `online` file — in particular when that glob matches nothing.
(An adapter with a truthy `online` file adds a further field, as the
counterexample shows.) -/
theorem no_battery_power_section (adapters : List (String × Option String))
    (hA : ∀ p ∈ adapters, p.1.data.head? = some 'A') :
    ("battery_status", "No battery detected (Desktop system)")
      ∈ get_power_info [] adapters ∧
    ((∀ p ∈ adapters, p.2 = none ∨ p.2 = some "") →
      get_power_info [] adapters
        = [("battery_status", "No battery detected (Desktop system)")]) := by
  constructor
  · unfold get_power_info
    refine mem_dictUpdate_of_ne _ _ _ _ (List.mem_singleton.mpr rfl) ?_
    intro q hq
    rcases mem_foldl_acStep adapters [] q hq with h | ⟨p, hp, he⟩
    · cases h
    · rw [he]
      exact adapter_key_ne_battery_status p.1 (hA p hp)
  · intro h
    have hac : get_ac_adapter_info adapters = [] :=
      foldl_acStep_no_fields adapters [] h
    unfold get_power_info
    rw [hac]
    rfl

/-- Witness for the amended C9 with one matched AC adapter whose
`online` file is unreadable: `battery_status` is present and is the sole
field. -/
theorem no_battery_power_section_witness :
    ("battery_status", "No battery detected (Desktop system)")
      ∈ get_power_info [] [("AC", none)] ∧
    ((∀ p ∈ [(("AC" : String), (none : Option String))],
        p.2 = none ∨ p.2 = some "") →
      get_power_info [] [("AC", none)]
        = [("battery_status", "No battery detected (Desktop system)")]) :=
  no_battery_power_section [("AC", none)] (by decide)

/-- C10 (code bug): at the claim's example `"-5000"` the guard rejects
the content and the zone is silently skipped, as the claim states; but
at the digit-class content `"²"` the guard `temp_raw.isdigit()` passes
while `int(temp_raw)` raises `ValueError`, so the zone is not silently
omitted — the exception aborts the thermal pass and, uncaught below
`run_all_checks`, the whole run. -/
theorem thermal_zone_digit_guard_crash :
    zoneOutcome ("thermal_zone0", some "-5000") = .skipped ∧
    thermalZonePass [("thermal_zone0", some "-5000")] = some ([], []) ∧
    zoneOutcome ("thermal_zone0", some "²") = .valueError ∧
    thermalZonePass [("thermal_zone0", some "²")] = none := by
  refine ⟨rfl, rfl, ?_, ?_⟩ <;> rfl

end Sysinfo
